import Mathlib

/-!
Shallow embedding of the Funding_Trader repository (Binance USDT-M funding-rate
trader): the precision math, the funding-rate scanner with its exchange-info
cache, the order executor, and the OCO watch loop, together with proofs of the
specification's claims about them.

Machine floating point in the source is modelled by exact rationals; network
calls are modelled by explicit oracle arguments (fetch results, poll
observations) so that every function is pure and executable.
-/

namespace FundingTrader

/-- Python `10 ** p` for an integer exponent `p` (`trade_binance.py`,
`_calculate_quantity` and `_round_price`), as an exact rational. -/
def pyPow10 (p : ℤ) : ℚ :=
  if 0 ≤ p then ((10 : ℚ) ^ p.toNat) else 1 / (10 : ℚ) ^ (-p).toNat

/-- Python `int(round(-math.log10 x))` for a rational `x`, computed exactly:
for `x > 0`, `-log10 x + 1/2 = (log10 (10 / x^2)) / 2`, hence
`round (-log10 x) = ⌊-log10 x + 1/2⌋ = ⌊⌊log10 (10 / x^2)⌋ / 2⌋`
(`Int.log 10` is the floor of the base-10 logarithm on positive rationals).
Ties, where banker's rounding could differ, cannot occur: they would need
`x^2` to be an odd power of 10, impossible for rational `x`. -/
def pyRoundNegLog10 (x : ℚ) : ℤ :=
  Int.log 10 (10 / (x * x)) / 2

/-- Embedding of `BinanceFuturesTrader._calculate_quantity`
(`trade_binance.py` lines 46-54): `raw = usdt_amount / price`,
`precision = int(round(-math.log10 step_size))`,
`qty = math.floor(raw * 10 ** precision) / 10 ** precision`, raising
`ValueError` (the spec's `InvalidQuantity`) when `qty <= 0`. -/
def calculate_quantity (usdt_amount price step_size : ℚ) : Except String ℚ :=
  let raw := usdt_amount / price
  let precision := pyRoundNegLog10 step_size
  let qty : ℚ := (⌊raw * pyPow10 precision⌋ : ℚ) / pyPow10 precision
  if qty ≤ 0 then .error "InvalidQuantity" else .ok qty

/-- Embedding of `BinanceFuturesTrader._round_price` (`trade_binance.py`
lines 56-59): `precision = int(round(-math.log10 tick))`,
`factor = 10 ** precision`, then floor for direction `"down"` and ceil
otherwise. -/
def round_price (price tick : ℚ) (direction : String) : ℚ :=
  let precision := pyRoundNegLog10 tick
  let factor := pyPow10 precision
  if direction = "down" then (⌊price * factor⌋ : ℚ) / factor
  else (⌈price * factor⌉ : ℚ) / factor

/-- Truncation of a rational toward zero, the operation the spec's
`quantity` rule names ("truncate toward zero to the decimal precision"). -/
def truncTowardZero (x : ℚ) : ℤ := if 0 ≤ x then ⌊x⌋ else ⌈x⌉

/-!
Scanner embedding (`funding_rate_scanner.py`).  Wall-clock times and
timestamps are rationals measured in seconds; the exchange-info and
funding-rate fetch results (each the outcome of `_request_with_retries`
after its whole retry loop, so `.error` means the retries were exhausted or
an HTTP error aborted the request) are explicit arguments.
-/

/-- Cache TTL for exchange info, `_CACHE_TTL = 30 * 60` seconds. -/
def CACHE_TTL : ℚ := 30 * 60

/-- Mutable state of `FundingRateScanner`: `_cached_symbols` (Python `None`
or a set of symbol strings, modelled as a list), `_cached_intervals`
(Python `None` or a dict, modelled as an insertion-ordered association
list) and `_last_info_ts`. -/
structure CacheState where
  cachedSymbols : Option (List String)
  cachedIntervals : Option (List (String × ℚ))
  lastInfoTs : ℚ
deriving DecidableEq, Repr

/-- Initial state from `__init__`: both caches `None`, timestamp `0`. -/
def initialCache : CacheState := ⟨none, none, 0⟩

/-- Python truthiness of `self._cached_symbols`: `None` and the empty set
are falsy. -/
def truthySymbols : Option (List String) → Bool
  | none => false
  | some l => !l.isEmpty

/-- One record of the `/exchangeInfo` response's `symbols` array (the two
fields the scanner reads). -/
structure SymbolInfo where
  symbol : String
  contractType : String
deriving DecidableEq, Repr

/-- One record of the `/fundingRate` response: `fundingInterval` may be
absent (`e.get('fundingInterval', 8)` then defaults to 8). -/
structure FundingEntry where
  symbol : String
  fundingInterval : Option ℚ
deriving DecidableEq, Repr

/-- Python `dict` built from an association list (later bindings overwrite
earlier ones) and read with `.get(k, d)`. -/
def dictGet (l : List (String × ℚ)) (k : String) (d : ℚ) : ℚ :=
  l.foldl (fun acc p => if p.1 = k then p.2 else acc) d

/-- Result of a `_refresh_exchange_info_if_needed` call: the state after the
call, how many times each underlying endpoint was fetched, and the raised
exception if any (mutations made before the raise persist, exactly as in
Python). -/
structure RefreshOutcome where
  state : CacheState
  infoFetches : ℕ
  fundingFetches : ℕ
  err : Option String
deriving DecidableEq, Repr

/-- Embedding of `_refresh_exchange_info_if_needed` (`funding_rate_scanner.py`
lines 65-88).  Returns early when `self._cached_symbols` is truthy and the
cache is younger than the TTL; otherwise fetches `/exchangeInfo`, assigns
`self._cached_symbols`, then fetches `/fundingRate`, assigns
`self._cached_intervals`, and finally updates `self._last_info_ts`.  A
failing fetch raises at that point, keeping the assignments already made. -/
def refresh_exchange_info_if_needed (now : ℚ) (st : CacheState)
    (infoResult : Except String (List SymbolInfo))
    (fundingResult : Except String (List FundingEntry)) : RefreshOutcome :=
  if truthySymbols st.cachedSymbols ∧ now - st.lastInfoTs < CACHE_TTL then
    ⟨st, 0, 0, none⟩
  else
    match infoResult with
    | .error e => ⟨st, 1, 0, some e⟩
    | .ok data =>
      let symbols := (data.filter (fun s => s.contractType = "PERPETUAL")).map
        (fun s => s.symbol)
      let st1 := { st with cachedSymbols := some symbols }
      match fundingResult with
      | .error e => ⟨st1, 1, 1, some e⟩
      | .ok arr =>
        let intervals := arr.map (fun e => (e.symbol, e.fundingInterval.getD 8))
        ⟨{ st1 with cachedIntervals := some intervals, lastInfoTs := now }, 1, 1, none⟩

/-- Result of `_get_perpetual_symbols`: the returned value (or propagated
exception), the state after the call and the fetch counts. -/
structure SymbolsOutcome where
  result : Except String (List String)
  state : CacheState
  infoFetches : ℕ
  fundingFetches : ℕ
deriving Repr

/-- Embedding of `_get_perpetual_symbols` (`funding_rate_scanner.py` lines
90-92): refresh if needed, then return `self._cached_symbols or set()`. -/
def get_perpetual_symbols (now : ℚ) (st : CacheState)
    (infoResult : Except String (List SymbolInfo))
    (fundingResult : Except String (List FundingEntry)) : SymbolsOutcome :=
  let r := refresh_exchange_info_if_needed now st infoResult fundingResult
  match r.err with
  | some e => ⟨.error e, r.state, r.infoFetches, r.fundingFetches⟩
  | none => ⟨.ok (r.state.cachedSymbols.getD []), r.state, r.infoFetches, r.fundingFetches⟩

/-- A JSON value in a rate field of a premium-index record: a number, a
string that parses as a number, a string that does not, or JSON `null`.
Python's `float` accepts the first two and raises on the last two. -/
inductive RawVal where
  | num (q : ℚ)
  | strNum (q : ℚ)
  | strBad
  | null
deriving DecidableEq, Repr

/-- Python `float(v)`: `none` when `float` raises `ValueError`/`TypeError`. -/
def pyFloat : RawVal → Option ℚ
  | .num q => some q
  | .strNum q => some q
  | .strBad => none
  | .null => none

/-- One record of the `/premiumIndex` response, with the fields `scan` reads.
`field = none` models an absent key; `nextFundingTime` is in milliseconds. -/
structure PremiumEntry where
  symbol : Option String
  lastFundingRate : Option RawVal
  fundingRate : Option RawVal
  nextFundingTime : Option ℚ
deriving DecidableEq, Repr

/-- One entry of the list returned by `scan`: `next_funding` is the UTC
timestamp in seconds (`datetime.fromtimestamp(ts_ms / 1000)`). -/
structure Snapshot where
  symbol : String
  rate_pct : ℚ
  next_funding : ℚ
  interval_h : ℚ
deriving DecidableEq, Repr

/-- The raw rate chosen by `scan` (`funding_rate_scanner.py` lines 133-136):
`entry.get('lastFundingRate')`, falling back to `entry.get('fundingRate', 0)`
when that is `None` (an absent key and a JSON `null` both read as `None`). -/
def rawRateOf (e : PremiumEntry) : RawVal :=
  match e.lastFundingRate with
  | none => e.fundingRate.getD (.num 0)
  | some .null => e.fundingRate.getD (.num 0)
  | some v => v

/-- One iteration of the `scan` loop (`funding_rate_scanner.py` lines
128-158) on a single premium-index record: `none` when the record is
skipped by a `continue`, otherwise the emitted snapshot.  `threshold` is
the scanner's `self.threshold = threshold_pct / 100`. -/
def scanEntry (threshold : ℚ) (symbols : List String)
    (intervals : List (String × ℚ)) (e : PremiumEntry) : Option Snapshot :=
  match e.symbol with
  | none => none
  | some sym =>
    if sym = "" ∨ sym ∉ symbols then none
    else
      match pyFloat (rawRateOf e) with
      | none => none
      | some rate =>
        if |rate| < threshold then none
        else
          match e.nextFundingTime with
          | none => none
          | some ts_ms =>
            some ⟨sym, rate * 100, ts_ms / 1000, dictGet intervals sym 8⟩

/-- Embedding of the record loop of `scan` (`funding_rate_scanner.py` lines
125-160): the cached symbol set and interval dict and the fetched premium
list are explicit arguments; the loop appends the snapshot of every
non-skipped record in order. -/
def scan (threshold : ℚ) (symbols : List String)
    (intervals : List (String × ℚ)) (premium : List PremiumEntry) : List Snapshot :=
  premium.filterMap (scanEntry threshold symbols intervals)

/-- Embedding of `get_upcoming_pairs` (`funding_rate_scanner.py` lines
174-189) given the scan result: keep `(symbol, rate_pct)` of entries with
`0 ≤ next_funding - now ≤ window_sec`. -/
def get_upcoming_pairs (now window_sec : ℚ) (scanResults : List Snapshot) :
    List (String × ℚ) :=
  scanResults.filterMap (fun r =>
    if 0 ≤ r.next_funding - now ∧ r.next_funding - now ≤ window_sec then
      some (r.symbol, r.rate_pct)
    else none)

/-- Embedding of `get_recent_pairs` (`funding_rate_scanner.py` lines
191-210) given the scan result: `last_ts = next_funding - interval_h` hours,
keep entries with `0 ≤ now - last_ts ≤ window_sec`. -/
def get_recent_pairs (now window_sec : ℚ) (scanResults : List Snapshot) :
    List (String × ℚ) :=
  scanResults.filterMap (fun r =>
    if 0 ≤ now - (r.next_funding - r.interval_h * 3600) ∧
        now - (r.next_funding - r.interval_h * 3600) ≤ window_sec then
      some (r.symbol, r.rate_pct)
    else none)

/-!
Trader embedding (`trade_binance.py`).  The exchange is an oracle structure
giving the responses of a run in which every network call succeeds; the
call's externally visible effects are recorded as an action trace.
-/

/-- Python `str.lower()` on ASCII strings (`direction.lower()` in
`place_order`), mapped over the characters. -/
def pyLower (s : String) : String := ⟨s.data.map Char.toLower⟩

/-- Parameters of a `futures_create_order` call made by `place_order`
(the fields it passes). -/
structure OrderReq where
  symbol : String
  side : String
  type : String
  quantity : ℚ
  price : Option ℚ
  stopPrice : Option ℚ
  reduceOnly : Bool
  timeInForce : Option String
deriving DecidableEq, Repr

/-- Externally visible actions a `place_order` call can perform.
`spawnMonitor` is the action of starting a detached OCO watcher
(a thread running `_watch_and_cancel`); it is part of the action
vocabulary so that its presence or absence in a trace can be stated. -/
inductive TraderAction where
  | fetchMarkPrice
  | fetchStepSize
  | fetchTickSize
  | createOrder (req : OrderReq)
  | fetchEntryPrice
  | spawnMonitor (slId tpId : ℕ)
deriving DecidableEq, Repr

/-- Oracle for one successful `place_order` run: the mark price, the
symbol's step and tick sizes, the exchange-assigned order ids, and the
entry price that `_fetch_entry_price` resolves to. -/
structure ExchangeEnv where
  markPrice : ℚ
  stepSize : ℚ
  tickSize : ℚ
  entryOrderId : ℕ
  resolvedEntryPrice : ℚ
  slOrderId : ℕ
  tpOrderId : ℕ
deriving DecidableEq, Repr

/-- Value returned by a successful `place_order`: the entry-order response
(its id) together with the `effectivePrice` added for debugging, and the
protective-order ids assigned during the call (`sl_id`, `tp_id`). -/
structure PlaceResult where
  orderId : ℕ
  effectivePrice : ℚ
  sl_id : Option ℕ
  tp_id : Option ℕ
deriving DecidableEq, Repr

/-- Embedding of `BinanceFuturesTrader.place_order` (`trade_binance.py`
lines 125-219) for a run in which every exchange call succeeds: validate
the direction; fetch mark price and step size and compute the quantity
(raising propagates); fetch the tick size; create the MARKET entry order;
resolve the entry price and require it positive; if `stop_loss_pct` is
given, compute the stop price (long rounds down, short rounds up) and
create a reduce-only STOP_MARKET order; if `take_profit_pct` is given,
compute the take-profit price (long rounds up, short rounds down) and
create a reduce-only GTC LIMIT order; return the entry response.  The
trace records every action in order; the source spawns no watcher thread
(`threading` is imported but never used), so no `spawnMonitor` action
appears. -/
def place_order (env : ExchangeEnv) (symbol direction : String)
    (usdt_amount : ℚ) (stop_loss_pct take_profit_pct : Option ℚ) :
    Except String (PlaceResult × List TraderAction) :=
  let side := pyLower direction
  if side ≠ "long" ∧ side ≠ "short" then .error "Direction must be long or short"
  else
    let entry_side := if side = "long" then "BUY" else "SELL"
    let exit_side := if side = "long" then "SELL" else "BUY"
    let mark_price_for_qty := env.markPrice
    let lot_step := env.stepSize
    match calculate_quantity usdt_amount mark_price_for_qty lot_step with
    | .error e => .error e
    | .ok qty =>
      let tick := env.tickSize
      let entryReq : OrderReq :=
        ⟨symbol, entry_side, "MARKET", qty, none, none, false, none⟩
      let entry_price := env.resolvedEntryPrice
      if entry_price ≤ 0 then .error "Failed to fetch valid entry price"
      else
        let slPart : List TraderAction × Option ℕ :=
          match stop_loss_pct with
          | none => ([], none)
          | some slPct =>
            let sl_price :=
              if side = "long" then
                round_price (entry_price * (1 - slPct / 100)) tick "down"
              else
                round_price (entry_price * (1 + slPct / 100)) tick "up"
            ([.createOrder ⟨symbol, exit_side, "STOP_MARKET", qty, none,
                some sl_price, true, none⟩], some env.slOrderId)
        let tpPart : List TraderAction × Option ℕ :=
          match take_profit_pct with
          | none => ([], none)
          | some tpPct =>
            let tp_price :=
              if side = "long" then
                round_price (entry_price * (1 + tpPct / 100)) tick "up"
              else
                round_price (entry_price * (1 - tpPct / 100)) tick "down"
            ([.createOrder ⟨symbol, exit_side, "LIMIT", qty, some tp_price,
                none, true, some "GTC"⟩], some env.tpOrderId)
        .ok (⟨env.entryOrderId, entry_price, slPart.2, tpPart.2⟩,
          [.fetchMarkPrice, .fetchStepSize, .fetchTickSize,
            .createOrder entryReq, .fetchEntryPrice] ++ slPart.1 ++ tpPart.1)

/-- Whether a trader action is the spawning of an OCO monitor. -/
def isSpawnMonitor : TraderAction → Bool
  | .spawnMonitor _ _ => true
  | _ => false

/-- Direction rule in `main.py` line 137:
`direction = 'long' if rate_pct > 0 else 'short'`. -/
def mainDirection (rate_pct : ℚ) : String :=
  if rate_pct > 0 then "long" else "short"

/-!
OCO watch-loop embedding (`trade_binance.py` lines 61-101).  One iteration
of the `while True` loop is driven by one `PollObs`: the two order-status
observations (already `none` when the status fetch raised — a `-2011`
"unknown order" is silently ignored, any other code is only printed — or
when the response has no `status` field) and the outcome the exchange
would give a cancel request issued this iteration (`none` for success,
`some code` for a `BinanceAPIException` with that code; the loop catches
the exception either way).  The loop body never raises.
-/

/-- Observations available to one iteration of the watch loop. -/
structure PollObs where
  slStatus : Option String
  tpStatus : Option String
  cancelErrCode : Option Int
deriving DecidableEq, Repr

/-- Result of a watch-loop run over a finite observation list: the order
ids whose cancellation was requested, in order, and whether the loop hit a
`break` (`terminated = true`) or ran out of observations while still
polling. -/
structure WatchResult where
  cancels : List ℕ
  terminated : Bool
deriving DecidableEq, Repr

/-- Embedding of `_watch_and_cancel` (`trade_binance.py` lines 61-101) run
over a finite list of per-iteration observations.  Each iteration reads
the stop-loss status (only when `sl_id` is truthy, i.e. nonzero), then the
take-profit status (only when `tp_id` is truthy); if the stop-loss status
is `FILLED` and `tp_id` is truthy it requests cancellation of `tp_id` and
breaks (swallowing any cancel error); otherwise, if the take-profit status
is `FILLED` and `sl_id` is truthy it requests cancellation of `sl_id` and
breaks; otherwise it sleeps and continues with the next observation. -/
def watch_and_cancel (sl_id tp_id : ℕ) : List PollObs → WatchResult
  | [] => ⟨[], false⟩
  | o :: rest =>
    let sl_status := if sl_id ≠ 0 then o.slStatus else none
    let tp_status := if tp_id ≠ 0 then o.tpStatus else none
    if sl_status = some "FILLED" ∧ tp_id ≠ 0 then ⟨[tp_id], true⟩
    else if tp_status = some "FILLED" ∧ sl_id ≠ 0 then ⟨[sl_id], true⟩
    else watch_and_cancel sl_id tp_id rest

/-- A concrete successful-run oracle used to instantiate the executor
claims: mark price 50000, step size 0.001, tick size 0.1, entry order id 1,
resolved entry price 100, protective order ids 7 and 8. -/
def env0 : ExchangeEnv := ⟨50000, 1/1000, 1/10, 1, 100, 7, 8⟩

/-! ### Helper lemmas -/

/-- Characterisation of the rounded negative log: if `10 ^ 2k ≤ 10 / x^2 <
10 ^ (2k + 2)` then the rounded value of `-log10 x` is `k`. -/
theorem pyRoundNegLog10_spec (x : ℚ) (k : ℤ)
    (h1 : (10:ℚ) ^ (2*k) ≤ 10 / (x*x)) (h2 : 10 / (x*x) < (10:ℚ) ^ (2*k+2)) :
    pyRoundNegLog10 x = k := by
  have hb : (1:ℕ) < 10 := by norm_num
  have h10 : ((10:ℕ):ℚ) = (10:ℚ) := by norm_num
  have hpos : (0:ℚ) < 10 / (x*x) :=
    lt_of_lt_of_le (zpow_pos (by norm_num) (2*k)) h1
  have hlow : 2*k ≤ Int.log 10 (10 / (x*x)) := by
    have hz := Int.log_zpow (R := ℚ) hb (2*k)
    rw [h10] at hz
    have hm := Int.log_mono_right (b := 10)
      (zpow_pos (show (0:ℚ) < 10 by norm_num) (2*k)) h1
    rw [hz] at hm
    exact hm
  have hhigh : Int.log 10 (10 / (x*x)) ≤ 2*k+1 := by
    by_contra hcon
    push_neg at hcon
    have h22 : (2*k+2 : ℤ) ≤ Int.log 10 (10 / (x*x)) := by omega
    have hmono : (10:ℚ)^(2*k+2) ≤ (10:ℚ)^(Int.log 10 (10/(x*x))) :=
      zpow_le_zpow_right₀ (by norm_num) h22
    have hself := Int.zpow_log_le_self (b := 10) hb hpos
    rw [h10] at hself
    linarith
  show Int.log 10 (10 / (x*x)) / 2 = k
  omega

/-- Precision implied by step or tick size `0.001` is `3`. -/
theorem pyRoundNegLog10_milli : pyRoundNegLog10 (1/1000) = 3 :=
  pyRoundNegLog10_spec _ _ (by norm_num) (by norm_num)

/-- Precision implied by tick size `0.1` is `1`. -/
theorem pyRoundNegLog10_tenth : pyRoundNegLog10 (1/10) = 1 :=
  pyRoundNegLog10_spec _ _ (by norm_num) (by norm_num)

/-- `10 ** p` is positive. -/
theorem pyPow10_pos (p : ℤ) : 0 < pyPow10 p := by
  unfold pyPow10
  split <;> positivity

/-- Evaluation: `quantity 100 50000 0.001 = 0.002`. -/
theorem calc_quantity_100_50000 :
    calculate_quantity 100 50000 (1/1000) = .ok (1/500) := by
  unfold calculate_quantity
  rw [pyRoundNegLog10_milli]
  norm_num [pyPow10, show ((3:ℤ).toNat) = 3 from rfl]

/-- Evaluation: `quantity 1 50000 0.001` fails. -/
theorem calc_quantity_1_50000 :
    calculate_quantity 1 50000 (1/1000) = .error "InvalidQuantity" := by
  unfold calculate_quantity
  rw [pyRoundNegLog10_milli]
  norm_num [pyPow10, show ((3:ℤ).toNat) = 3 from rfl]

/-- Evaluation: the long stop price at entry 100, tick 0.1, slPct 0.1 is
99.9 (rounded down). -/
theorem round_price_sl_eval :
    round_price (999/10) (1/10) "down" = 999/10 := by
  unfold round_price
  rw [pyRoundNegLog10_tenth]
  norm_num [pyPow10, show ((1:ℤ).toNat) = 1 from rfl]

/-- Evaluation: the long take-profit price at entry 100, tick 0.1,
tpPct 0.2 is 100.2 (rounded up). -/
theorem round_price_tp_eval :
    round_price (501/5) (1/10) "up" = 501/5 := by
  unfold round_price
  rw [pyRoundNegLog10_tenth]
  norm_num [pyPow10, show ((1:ℤ).toNat) = 1 from rfl]

/-- General evaluation of `place_order` for direction `"long"` with both
protective percentages given, on any oracle for which the quantity
computation succeeds and the resolved entry price is positive. -/
theorem place_order_long_eval (env : ExchangeEnv) (symbol : String)
    (usdt slPct tpPct qty : ℚ)
    (hq : calculate_quantity usdt env.markPrice env.stepSize = .ok qty)
    (hep : ¬ env.resolvedEntryPrice ≤ 0) :
    place_order env symbol "long" usdt (some slPct) (some tpPct) =
      .ok (⟨env.entryOrderId, env.resolvedEntryPrice, some env.slOrderId, some env.tpOrderId⟩,
        [.fetchMarkPrice, .fetchStepSize, .fetchTickSize,
          .createOrder ⟨symbol, "BUY", "MARKET", qty, none, none, false, none⟩,
          .fetchEntryPrice,
          .createOrder ⟨symbol, "SELL", "STOP_MARKET", qty, none,
            some (round_price (env.resolvedEntryPrice * (1 - slPct / 100)) env.tickSize "down"),
            true, none⟩,
          .createOrder ⟨symbol, "SELL", "LIMIT", qty,
            some (round_price (env.resolvedEntryPrice * (1 + tpPct / 100)) env.tickSize "up"),
            none, true, some "GTC"⟩]) := by
  have h1 : pyLower "long" = "long" := rfl
  unfold place_order
  simp only [h1, hq]
  norm_num [hep]

/-- General evaluation of `place_order` for direction `"short"` with both
protective percentages given. -/
theorem place_order_short_eval (env : ExchangeEnv) (symbol : String)
    (usdt slPct tpPct qty : ℚ)
    (hq : calculate_quantity usdt env.markPrice env.stepSize = .ok qty)
    (hep : ¬ env.resolvedEntryPrice ≤ 0) :
    place_order env symbol "short" usdt (some slPct) (some tpPct) =
      .ok (⟨env.entryOrderId, env.resolvedEntryPrice, some env.slOrderId, some env.tpOrderId⟩,
        [.fetchMarkPrice, .fetchStepSize, .fetchTickSize,
          .createOrder ⟨symbol, "SELL", "MARKET", qty, none, none, false, none⟩,
          .fetchEntryPrice,
          .createOrder ⟨symbol, "BUY", "STOP_MARKET", qty, none,
            some (round_price (env.resolvedEntryPrice * (1 + slPct / 100)) env.tickSize "up"),
            true, none⟩,
          .createOrder ⟨symbol, "BUY", "LIMIT", qty,
            some (round_price (env.resolvedEntryPrice * (1 - tpPct / 100)) env.tickSize "down"),
            none, true, some "GTC"⟩]) := by
  have h1 : pyLower "short" = "short" := rfl
  have h2 : ("short" = "long") = False := by decide
  unfold place_order
  simp only [h1, hq, h2, if_false]
  norm_num [hep]

/-- Projections of the concrete oracle. -/
theorem env0_fields :
    env0.markPrice = 50000 ∧ env0.stepSize = 1/1000 ∧ env0.tickSize = 1/10 ∧
      env0.entryOrderId = 1 ∧ env0.resolvedEntryPrice = 100 ∧
      env0.slOrderId = 7 ∧ env0.tpOrderId = 8 :=
  ⟨rfl, rfl, rfl, rfl, rfl, rfl, rfl⟩

/-- Full evaluation of `place_order` on the concrete oracle `env0`: the
entry and both protective orders are created (ids 7 and 8 assigned) and
the complete action trace is as listed. -/
theorem place_order_env0_eval :
    place_order env0 "BTCUSDT" "long" 100 (some (1/10)) (some (2/10)) =
      .ok (⟨1, 100, some 7, some 8⟩,
        [.fetchMarkPrice, .fetchStepSize, .fetchTickSize,
          .createOrder ⟨"BTCUSDT", "BUY", "MARKET", 1/500, none, none, false, none⟩,
          .fetchEntryPrice,
          .createOrder ⟨"BTCUSDT", "SELL", "STOP_MARKET", 1/500, none,
            some (999/10), true, none⟩,
          .createOrder ⟨"BTCUSDT", "SELL", "LIMIT", 1/500, some (501/5),
            none, true, some "GTC"⟩]) := by
  have h := place_order_long_eval env0 "BTCUSDT" 100 (1/10) (2/10) (1/500)
    (by rw [env0_fields.1, env0_fields.2.1]; exact calc_quantity_100_50000)
    (by rw [env0_fields.2.2.2.2.1]; norm_num)
  rw [h]
  rw [env0_fields.2.2.1, env0_fields.2.2.2.1, env0_fields.2.2.2.2.1,
    env0_fields.2.2.2.2.2.1, env0_fields.2.2.2.2.2.2]
  norm_num [round_price_sl_eval, round_price_tp_eval]

/-- Quantity computation succeeds on the concrete oracle. -/
theorem calc_quantity_env0 :
    calculate_quantity 100 env0.markPrice env0.stepSize = .ok (1/500) := by
  rw [env0_fields.1, env0_fields.2.1]
  exact calc_quantity_100_50000

/-- The resolved entry price of the concrete oracle is positive. -/
theorem env0_entry_price_pos : ¬ env0.resolvedEntryPrice ≤ 0 := by
  rw [env0_fields.2.2.2.2.1]
  norm_num

/-- Evaluation of a refresh that actually runs (stale or empty cache) with
both fetches succeeding. -/
theorem refresh_run_ok (now : ℚ) (st : CacheState)
    (h : ¬ (truthySymbols st.cachedSymbols ∧ now - st.lastInfoTs < CACHE_TTL))
    (data : List SymbolInfo) (arr : List FundingEntry) :
    refresh_exchange_info_if_needed now st (.ok data) (.ok arr) =
      ⟨⟨some ((data.filter (fun s => s.contractType = "PERPETUAL")).map (fun s => s.symbol)),
        some (arr.map (fun e => (e.symbol, e.fundingInterval.getD 8))), now⟩, 1, 1, none⟩ := by
  simp [refresh_exchange_info_if_needed, if_neg h]

/-- Evaluation of a refresh that runs and whose exchange-info fetch fails:
nothing is mutated, one info fetch, the error propagates. -/
theorem refresh_info_error (now : ℚ) (st : CacheState)
    (hrun : ¬ (truthySymbols st.cachedSymbols ∧ now - st.lastInfoTs < CACHE_TTL))
    (e : String) (fundR : Except String (List FundingEntry)) :
    refresh_exchange_info_if_needed now st (.error e) fundR = ⟨st, 1, 0, some e⟩ := by
  simp [refresh_exchange_info_if_needed, if_neg hrun]

/-- Evaluation of a refresh that runs, whose exchange-info fetch succeeds
and whose funding-interval fetch fails: the symbol set has been replaced,
the interval map and timestamp are untouched, the error propagates. -/
theorem refresh_funding_error (now : ℚ) (st : CacheState)
    (hrun : ¬ (truthySymbols st.cachedSymbols ∧ now - st.lastInfoTs < CACHE_TTL))
    (data : List SymbolInfo) (e : String) :
    refresh_exchange_info_if_needed now st (.ok data) (.error e) =
      ⟨⟨some ((data.filter (fun s => s.contractType = "PERPETUAL")).map
          (fun s => s.symbol)), st.cachedIntervals, st.lastInfoTs⟩, 1, 1, some e⟩ := by
  simp [refresh_exchange_info_if_needed, if_neg hrun]

/-- Evaluation of a refresh that returns early (truthy cache within TTL). -/
theorem refresh_fresh (now : ℚ) (st : CacheState)
    (h : truthySymbols st.cachedSymbols ∧ now - st.lastInfoTs < CACHE_TTL)
    (infoR : Except String (List SymbolInfo)) (fundR : Except String (List FundingEntry)) :
    refresh_exchange_info_if_needed now st infoR fundR = ⟨st, 0, 0, none⟩ := by
  simp [refresh_exchange_info_if_needed, if_pos h]

/-! ### Claims -/

/-- C1: the claim says a successful `place_order` call with both protective
orders placed spawns a detached OCOMonitor before returning.  The code does
not: `_watch_and_cancel` is never called and no thread is ever started
(`threading` is imported unused), so the action trace of every successful
run — including runs in which both protective orders were placed — contains
no `spawnMonitor` action. -/
theorem C1_no_monitor_spawned (env : ExchangeEnv) (symbol direction : String)
    (usdt : ℚ) (slPct tpPct : Option ℚ) (res : PlaceResult)
    (tr : List TraderAction)
    (h : place_order env symbol direction usdt slPct tpPct = .ok (res, tr)) :
    tr.countP isSpawnMonitor = 0 := by
  simp only [place_order] at h
  by_cases hdir : (pyLower direction ≠ "long" ∧ pyLower direction ≠ "short")
  · rw [if_pos hdir] at h
    exact absurd h (by simp)
  · rw [if_neg hdir] at h
    split at h
    · exact absurd h (by simp)
    · by_cases hep : env.resolvedEntryPrice ≤ 0
      · rw [if_pos hep] at h
        exact absurd h (by simp)
      · rw [if_neg hep] at h
        cases slPct <;> cases tpPct <;>
            simp only [Except.ok.injEq, Prod.mk.injEq] at h <;>
            rcases h with ⟨hres, htr⟩ <;> subst htr <;>
            simp [List.countP_cons, List.countP_nil, isSpawnMonitor]

/-- C1 witness: the concrete successful run on `env0`, in which both
protective orders were placed (ids 7 and 8), has no monitor-spawn action
in its trace. -/
theorem C1_no_monitor_spawned_witness :
    ([TraderAction.fetchMarkPrice, .fetchStepSize, .fetchTickSize,
        .createOrder ⟨"BTCUSDT", "BUY", "MARKET", 1/500, none, none, false, none⟩,
        .fetchEntryPrice,
        .createOrder ⟨"BTCUSDT", "SELL", "STOP_MARKET", 1/500, none,
          some (999/10), true, none⟩,
        .createOrder ⟨"BTCUSDT", "SELL", "LIMIT", 1/500, some (501/5),
          none, true, some "GTC"⟩] : List TraderAction).countP isSpawnMonitor = 0 :=
  C1_no_monitor_spawned env0 "BTCUSDT" "long" 100 (some (1/10)) (some (2/10))
    ⟨1, 100, some 7, some 8⟩ _ place_order_env0_eval

/-- C8: protective prices are `entry * (1 ∓ slPct/100)` and
`entry * (1 ± tpPct/100)`, with the stop price rounded down for long and
up for short and the take-profit price rounded up for long and down for
short; a candidate with positive funding rate is traded long; and at entry
100, tick 0.1, `slPct = 0.1` the stop price is 99.9 while `tpPct = 0.2`
gives take-profit 100.2. -/
theorem C8_protective_prices :
    (∀ rate_pct : ℚ, 0 < rate_pct → mainDirection rate_pct = "long") ∧
    (∀ (env : ExchangeEnv) (symbol : String) (usdt slPct tpPct qty : ℚ),
      calculate_quantity usdt env.markPrice env.stepSize = .ok qty →
      ¬ env.resolvedEntryPrice ≤ 0 →
      ∃ res tr, place_order env symbol "long" usdt (some slPct) (some tpPct) =
          .ok (res, tr) ∧
        TraderAction.createOrder ⟨symbol, "SELL", "STOP_MARKET", qty, none,
          some (round_price (env.resolvedEntryPrice * (1 - slPct / 100)) env.tickSize "down"),
          true, none⟩ ∈ tr ∧
        TraderAction.createOrder ⟨symbol, "SELL", "LIMIT", qty,
          some (round_price (env.resolvedEntryPrice * (1 + tpPct / 100)) env.tickSize "up"),
          none, true, some "GTC"⟩ ∈ tr) ∧
    (∀ (env : ExchangeEnv) (symbol : String) (usdt slPct tpPct qty : ℚ),
      calculate_quantity usdt env.markPrice env.stepSize = .ok qty →
      ¬ env.resolvedEntryPrice ≤ 0 →
      ∃ res tr, place_order env symbol "short" usdt (some slPct) (some tpPct) =
          .ok (res, tr) ∧
        TraderAction.createOrder ⟨symbol, "BUY", "STOP_MARKET", qty, none,
          some (round_price (env.resolvedEntryPrice * (1 + slPct / 100)) env.tickSize "up"),
          true, none⟩ ∈ tr ∧
        TraderAction.createOrder ⟨symbol, "BUY", "LIMIT", qty,
          some (round_price (env.resolvedEntryPrice * (1 - tpPct / 100)) env.tickSize "down"),
          none, true, some "GTC"⟩ ∈ tr) ∧
    round_price (100 * (1 - (1/10) / 100)) (1/10) "down" = 999/10 ∧
    round_price (100 * (1 + (2/10) / 100)) (1/10) "up" = 501/5 := by
  refine ⟨fun r hr => ?_, fun env symbol usdt slPct tpPct qty hq hep => ?_,
    fun env symbol usdt slPct tpPct qty hq hep => ?_, ?_, ?_⟩
  · unfold mainDirection
    rw [if_pos hr]
  · exact ⟨_, _, place_order_long_eval env symbol usdt slPct tpPct qty hq hep,
      by simp, by simp⟩
  · exact ⟨_, _, place_order_short_eval env symbol usdt slPct tpPct qty hq hep,
      by simp, by simp⟩
  · norm_num [round_price_sl_eval]
  · norm_num [round_price_tp_eval]

/-- C8 witness: the direction rule at rate `0.42` and the long-run
conclusion instantiated on the concrete oracle `env0`. -/
theorem C8_protective_prices_witness :
    mainDirection (42/100) = "long" ∧
    (∃ res tr, place_order env0 "BTCUSDT" "long" 100 (some (1/10)) (some (2/10)) =
        .ok (res, tr) ∧
      TraderAction.createOrder ⟨"BTCUSDT", "SELL", "STOP_MARKET", 1/500, none,
        some (round_price (env0.resolvedEntryPrice * (1 - (1/10) / 100)) env0.tickSize "down"),
        true, none⟩ ∈ tr ∧
      TraderAction.createOrder ⟨"BTCUSDT", "SELL", "LIMIT", 1/500,
        some (round_price (env0.resolvedEntryPrice * (1 + (2/10) / 100)) env0.tickSize "up"),
        none, true, some "GTC"⟩ ∈ tr) :=
  ⟨C8_protective_prices.1 (42/100) (by norm_num),
    C8_protective_prices.2.1 env0 "BTCUSDT" 100 (1/10) (2/10) (1/500)
      calc_quantity_env0 env0_entry_price_pos⟩

/-- C7: for all positive `usdt_amount` and `price`, `_calculate_quantity`
returns `usdt_amount / price` truncated toward zero at the decimal
precision `round (-log10 step_size)` and fails with `InvalidQuantity`
exactly when the truncated result is `≤ 0`; in particular
`quantity 100 50000 0.001 = 0.002` and `quantity 1 50000 0.001` fails. -/
theorem C7_quantity_truncation :
    (∀ usdt price step : ℚ, 0 < usdt → 0 < price →
      calculate_quantity usdt price step =
        (if ((truncTowardZero (usdt / price * pyPow10 (pyRoundNegLog10 step)) : ℚ) /
              pyPow10 (pyRoundNegLog10 step)) ≤ 0 then
          .error "InvalidQuantity"
        else
          .ok ((truncTowardZero (usdt / price * pyPow10 (pyRoundNegLog10 step)) : ℚ) /
            pyPow10 (pyRoundNegLog10 step)))) ∧
    calculate_quantity 100 50000 (1/1000) = .ok (1/500) ∧
    calculate_quantity 1 50000 (1/1000) = .error "InvalidQuantity" := by
  refine ⟨fun usdt price step husdt hprice => ?_, ?_, ?_⟩
  · have harg : 0 ≤ usdt / price * pyPow10 (pyRoundNegLog10 step) := by
      have := pyPow10_pos (pyRoundNegLog10 step)
      positivity
    simp only [calculate_quantity, truncTowardZero, if_pos harg]
  · exact calc_quantity_100_50000
  · exact calc_quantity_1_50000

/-- C7 witness: the truncation characterisation instantiated at
`quantity 100 50000 0.001`, with the hypotheses discharged. -/
theorem C7_quantity_truncation_witness :
    calculate_quantity 100 50000 (1/1000) =
      (if ((truncTowardZero (100 / 50000 * pyPow10 (pyRoundNegLog10 (1/1000))) : ℚ) /
            pyPow10 (pyRoundNegLog10 (1/1000))) ≤ 0 then
        .error "InvalidQuantity"
      else
        .ok ((truncTowardZero (100 / 50000 * pyPow10 (pyRoundNegLog10 (1/1000))) : ℚ) /
          pyPow10 (pyRoundNegLog10 (1/1000)))) :=
  C7_quantity_truncation.1 100 50000 (1/1000) (by norm_num) (by norm_num)

/-- C2 counterexample: with a stale cache holding symbol set `{"OLD"}`, a
refresh whose exchange-info fetch succeeds (returning `NEW`) and whose
funding-interval fetch fails propagates the error, yet the cached symbol
set has been replaced — it is no longer what it was before the call, contrary
to the claim that all three fields are left exactly as they were. -/
theorem C2_refresh_counterexample :
    (refresh_exchange_info_if_needed 1800 ⟨some ["OLD"], some [("OLD", 8)], 0⟩
        (.ok [⟨"NEW", "PERPETUAL"⟩]) (.error "boom")).err = some "boom" ∧
    (refresh_exchange_info_if_needed 1800 ⟨some ["OLD"], some [("OLD", 8)], 0⟩
        (.ok [⟨"NEW", "PERPETUAL"⟩]) (.error "boom")).state.cachedSymbols ≠
      (⟨some ["OLD"], some [("OLD", 8)], 0⟩ : CacheState).cachedSymbols := by
  norm_num [refresh_exchange_info_if_needed, truthySymbols, CACHE_TTL]
  decide

/-- C2 amended: when a refresh actually runs and a fetch fails, the error
propagates and the cached interval map and timestamp are unchanged; if the
first (exchange-info) fetch failed the symbol set is unchanged too, but if
the first succeeded and the second (funding-interval) fetch failed, the
cached symbol set has already been replaced with the newly fetched set. -/
theorem C2_refresh_failure (now : ℚ) (st : CacheState)
    (hrun : ¬ (truthySymbols st.cachedSymbols ∧ now - st.lastInfoTs < CACHE_TTL)) :
    (∀ (e : String) (fundR : Except String (List FundingEntry)),
      refresh_exchange_info_if_needed now st (.error e) fundR = ⟨st, 1, 0, some e⟩) ∧
    (∀ (data : List SymbolInfo) (e : String),
      refresh_exchange_info_if_needed now st (.ok data) (.error e) =
        ⟨⟨some ((data.filter (fun s => s.contractType = "PERPETUAL")).map
            (fun s => s.symbol)), st.cachedIntervals, st.lastInfoTs⟩, 1, 1, some e⟩) :=
  ⟨fun e fundR => refresh_info_error now st hrun e fundR,
    fun data e => refresh_funding_error now st hrun data e⟩

/-- C2 witness: the amended statement instantiated on the stale `OLD` cache
with a failing funding-interval fetch. -/
theorem C2_refresh_failure_witness :
    refresh_exchange_info_if_needed 1800 ⟨some ["OLD"], some [("OLD", 8)], 0⟩
        (.ok [⟨"NEW", "PERPETUAL"⟩]) (.error "boom") =
      ⟨⟨some ["NEW"], some [("OLD", 8)], 0⟩, 1, 1, some "boom"⟩ := by
  have h := (C2_refresh_failure 1800 ⟨some ["OLD"], some [("OLD", 8)], 0⟩
    (by norm_num [truthySymbols, CACHE_TTL])).2 [⟨"NEW", "PERPETUAL"⟩] "boom"
  simpa using h

/-- C4 counterexample: a successful refresh whose fetched perpetual set is
empty produces the state `⟨some [], some [], 0⟩`, and a `symbols()` call on
that state 10 seconds later — well within the 1800-second TTL — issues
another exchange-info fetch instead of none, because the empty cached set
is falsy in the staleness test. -/
theorem C4_ttl_counterexample :
    refresh_exchange_info_if_needed 0 initialCache (.ok []) (.ok []) =
      ⟨⟨some [], some [], 0⟩, 1, 1, none⟩ ∧
    (get_perpetual_symbols 10 ⟨some [], some [], 0⟩ (.ok []) (.ok [])).infoFetches = 1 := by
  constructor <;>
    norm_num [refresh_exchange_info_if_needed, get_perpetual_symbols,
      initialCache, truthySymbols, CACHE_TTL]

/-- C4 amended: for a refresh that fetched a nonempty perpetual set, a
second `symbols()` call within the TTL issues no fetch and leaves the
state unchanged, so the two calls issue exactly one exchange-info fetch in
total; and any call at a time past the TTL issues exactly one
exchange-info fetch.  (When the fetched set is empty the TTL short-circuit
never applies and every call refetches, as the counterexample shows.) -/
theorem C4_ttl_cache :
    (∀ (st : CacheState) (t1 t2 : ℚ) (data : List SymbolInfo)
        (arr : List FundingEntry) (infoR2 : Except String (List SymbolInfo))
        (fundR2 : Except String (List FundingEntry)),
      ¬ (truthySymbols st.cachedSymbols ∧ t1 - st.lastInfoTs < CACHE_TTL) →
      (data.filter (fun s => s.contractType = "PERPETUAL")).map (fun s => s.symbol) ≠ [] →
      t2 - t1 < CACHE_TTL →
      (get_perpetual_symbols t1 st (.ok data) (.ok arr)).infoFetches +
        (get_perpetual_symbols t2 (get_perpetual_symbols t1 st (.ok data) (.ok arr)).state
          infoR2 fundR2).infoFetches = 1 ∧
      (get_perpetual_symbols t2 (get_perpetual_symbols t1 st (.ok data) (.ok arr)).state
          infoR2 fundR2).state =
        (get_perpetual_symbols t1 st (.ok data) (.ok arr)).state) ∧
    (∀ (st : CacheState) (now : ℚ) (infoR : Except String (List SymbolInfo))
        (fundR : Except String (List FundingEntry)),
      ¬ now - st.lastInfoTs < CACHE_TTL →
      (get_perpetual_symbols now st infoR fundR).infoFetches = 1) := by
  constructor
  · intro st t1 t2 data arr infoR2 fundR2 h1 hne hf
    have e1 : get_perpetual_symbols t1 st (.ok data) (.ok arr) =
        ⟨.ok ((data.filter (fun s => s.contractType = "PERPETUAL")).map (fun s => s.symbol)),
          ⟨some ((data.filter (fun s => s.contractType = "PERPETUAL")).map (fun s => s.symbol)),
            some (arr.map (fun e => (e.symbol, e.fundingInterval.getD 8))), t1⟩, 1, 1⟩ := by
      simp [get_perpetual_symbols, refresh_run_ok t1 st h1 data arr]
    have htr : truthySymbols (some ((data.filter
        (fun s => s.contractType = "PERPETUAL")).map (fun s => s.symbol))) = true := by
      simp [truthySymbols, hne]
    rw [e1]
    have e2 := refresh_fresh t2
      ⟨some ((data.filter (fun s => s.contractType = "PERPETUAL")).map (fun s => s.symbol)),
        some (arr.map (fun e => (e.symbol, e.fundingInterval.getD 8))), t1⟩
      (by constructor
          · exact htr
          · simpa using hf) infoR2 fundR2
    simp [get_perpetual_symbols, e2]
  · intro st now infoR fundR hstale
    have hrun : ¬ (truthySymbols st.cachedSymbols ∧ now - st.lastInfoTs < CACHE_TTL) := by
      intro hc
      exact hstale hc.2
    rcases infoR with e | data
    · simp [get_perpetual_symbols, refresh_info_error now st hrun e fundR]
    · rcases fundR with e | arr
      · simp [get_perpetual_symbols, refresh_funding_error now st hrun data e]
      · simp [get_perpetual_symbols, refresh_run_ok now st hrun data arr]

/-- C4 witness: the amended two-call statement instantiated on the initial
cache with a nonempty fetched set and a second call 10 seconds later, and
the expiry statement at time 1800 on the refreshed state. -/
theorem C4_ttl_cache_witness :
    ((get_perpetual_symbols 0 initialCache (.ok [⟨"BTCUSDT", "PERPETUAL"⟩]) (.ok [])).infoFetches +
      (get_perpetual_symbols 10 (get_perpetual_symbols 0 initialCache
        (.ok [⟨"BTCUSDT", "PERPETUAL"⟩]) (.ok [])).state (.ok []) (.ok [])).infoFetches = 1 ∧
    (get_perpetual_symbols 10 (get_perpetual_symbols 0 initialCache
        (.ok [⟨"BTCUSDT", "PERPETUAL"⟩]) (.ok [])).state (.ok []) (.ok [])).state =
      (get_perpetual_symbols 0 initialCache (.ok [⟨"BTCUSDT", "PERPETUAL"⟩]) (.ok [])).state) ∧
    (get_perpetual_symbols 1800 ⟨some ["BTCUSDT"], some [], 0⟩ (.ok []) (.ok [])).infoFetches = 1 :=
  ⟨C4_ttl_cache.1 initialCache 0 10 [⟨"BTCUSDT", "PERPETUAL"⟩] [] (.ok []) (.ok [])
      (by norm_num [initialCache, truthySymbols]) (by simp) (by norm_num [CACHE_TTL]),
    C4_ttl_cache.2 ⟨some ["BTCUSDT"], some [], 0⟩ 1800 (.ok []) (.ok [])
      (by norm_num [CACHE_TTL])⟩

/-- C3 counterexample: with threshold 0, a premium-index record whose two
rate fields are both absent but whose symbol is cached and whose
next-settlement timestamp is present is NOT omitted: it is emitted with
rate defaulted to 0 (`rate_pct = 0`), because `entry.get('fundingRate', 0)`
turns the double absence into a parseable `0`. -/
theorem C3_default_rate_counterexample :
    scan 0 ["BTCUSDT"] [] [⟨some "BTCUSDT", none, none, some 1700000000000⟩] =
      [⟨"BTCUSDT", 0, 1700000000, 8⟩] := by
  have h : scanEntry 0 ["BTCUSDT"] [] ⟨some "BTCUSDT", none, none, some 1700000000000⟩ =
      some ⟨"BTCUSDT", 0, 1700000000, 8⟩ := by
    norm_num [scanEntry, rawRateOf, pyFloat, dictGet]
    exact fun hc => absurd hc (by decide)
  simp [scan, h]

/-- C3 amended: a record whose chosen rate value is present but unparseable
is skipped, and a record lacking the next-settlement timestamp is skipped;
but a record with BOTH rate fields absent is defaulted to rate 0, so it is
skipped only when the threshold is positive — at threshold 0 (with symbol
cached and timestamp present) it is emitted with `rate_pct = 0`. -/
theorem C3_malformed_records (threshold : ℚ) (symbols : List String)
    (intervals : List (String × ℚ)) (e : PremiumEntry) :
    (pyFloat (rawRateOf e) = none → scanEntry threshold symbols intervals e = none) ∧
    (e.nextFundingTime = none → scanEntry threshold symbols intervals e = none) ∧
    (e.lastFundingRate = none → e.fundingRate = none → 0 < threshold →
      scanEntry threshold symbols intervals e = none) ∧
    (∀ (sym : String) (ts : ℚ), e.symbol = some sym → sym ≠ "" → sym ∈ symbols →
      e.lastFundingRate = none → e.fundingRate = none → threshold = 0 →
      e.nextFundingTime = some ts →
      scanEntry threshold symbols intervals e =
        some ⟨sym, 0, ts / 1000, dictGet intervals sym 8⟩) := by
  refine ⟨fun hpf => ?_, fun hts => ?_, fun hl hf hth => ?_,
    fun sym ts hsym hne hmem hl hf hth hts => ?_⟩
  · rcases hsym : e.symbol with _ | sym <;> simp [scanEntry, hsym, hpf]
  · rcases hsym : e.symbol with _ | sym <;>
      rcases hpf : pyFloat (rawRateOf e) with _ | rate <;>
      simp [scanEntry, hsym, hts, hpf]
  · rcases hsym : e.symbol with _ | sym <;>
      simp [scanEntry, hsym, rawRateOf, hl, hf, pyFloat, abs_zero, hth]
  · subst hth
    simp [scanEntry, hsym, hne, hmem, rawRateOf, hl, hf, pyFloat, hts]

/-- C3 witness: the amended statement instantiated on an unparseable-rate
record (skipped) and on a double-absence record at threshold 0 (emitted
with rate 0). -/
theorem C3_malformed_records_witness :
    scanEntry 0 ["BTCUSDT"] [] ⟨some "BTCUSDT", some .strBad, none, some 1000⟩ = none ∧
    scanEntry 0 ["BTCUSDT"] [] ⟨some "BTCUSDT", none, none, some 1000⟩ =
      some ⟨"BTCUSDT", 0, 1000 / 1000, dictGet [] "BTCUSDT" 8⟩ :=
  ⟨(C3_malformed_records 0 ["BTCUSDT"] []
      ⟨some "BTCUSDT", some .strBad, none, some 1000⟩).1 rfl,
    (C3_malformed_records 0 ["BTCUSDT"] []
      ⟨some "BTCUSDT", none, none, some 1000⟩).2.2.2 "BTCUSDT" 1000 rfl
      (by decide) (by simp) rfl rfl rfl rfl⟩

/-- C5: for every `thresholdPct ≥ 0`, `scan` excludes each record whose
parsed rate satisfies `|rate| < thresholdPct/100`, includes each qualifying
record (cached symbol, parseable rate above threshold, timestamp present)
with `rate_pct = rate * 100`, `next_funding` the record timestamp and the
interval looked up from the cache with default 8, and the scan result is
exactly the per-record outcomes of the premium list. -/
theorem C5_threshold_filter (threshold_pct : ℚ) (hth : 0 ≤ threshold_pct)
    (symbols : List String) (intervals : List (String × ℚ)) :
    (∀ (e : PremiumEntry) (rate : ℚ), pyFloat (rawRateOf e) = some rate →
      |rate| < threshold_pct / 100 →
      scanEntry (threshold_pct / 100) symbols intervals e = none) ∧
    (∀ (e : PremiumEntry) (sym : String) (rate ts : ℚ),
      e.symbol = some sym → sym ≠ "" → sym ∈ symbols →
      pyFloat (rawRateOf e) = some rate → ¬ |rate| < threshold_pct / 100 →
      e.nextFundingTime = some ts →
      scanEntry (threshold_pct / 100) symbols intervals e =
        some ⟨sym, rate * 100, ts / 1000, dictGet intervals sym 8⟩) ∧
    (∀ (premium : List PremiumEntry) (r : Snapshot),
      r ∈ scan (threshold_pct / 100) symbols intervals premium ↔
      ∃ e ∈ premium, scanEntry (threshold_pct / 100) symbols intervals e = some r) := by
  refine ⟨fun e rate hrate habs => ?_,
    fun e sym rate ts hsym hne hmem hrate habs hts => ?_, fun premium r => ?_⟩
  · rcases hsym : e.symbol with _ | sym <;> simp [scanEntry, hsym, hrate, habs]
  · simp [scanEntry, hsym, hne, hmem, hrate, habs, hts]
  · simp [scan, List.mem_filterMap]

/-- C5 witness: at `thresholdPct = 0.1`, a record with rate `0.0001` is
excluded and a record with rate `0.0042` is included with
`rate_pct = 0.42`. -/
theorem C5_threshold_filter_witness :
    scanEntry ((1/10) / 100) ["BTCUSDT"] []
        ⟨some "BTCUSDT", some (.num (1/10000)), none, some 1000⟩ = none ∧
    scanEntry ((1/10) / 100) ["BTCUSDT"] []
        ⟨some "BTCUSDT", some (.num (42/10000)), none, some 1000⟩ =
      some ⟨"BTCUSDT", (42/10000) * 100, 1000 / 1000, dictGet [] "BTCUSDT" 8⟩ :=
  ⟨(C5_threshold_filter (1/10) (by norm_num) ["BTCUSDT"] []).1
      ⟨some "BTCUSDT", some (.num (1/10000)), none, some 1000⟩ (1/10000) rfl
      (by rw [abs_lt]; constructor <;> norm_num),
    (C5_threshold_filter (1/10) (by norm_num) ["BTCUSDT"] []).2.1
      ⟨some "BTCUSDT", some (.num (42/10000)), none, some 1000⟩ "BTCUSDT"
      (42/10000) 1000 rfl (by decide) (by simp) rfl
      (by rw [not_lt, le_abs]; left; norm_num) rfl⟩

/-- C6: `get_upcoming_pairs w` returns exactly the `(symbol, rate_pct)`
pairs of scan entries with `0 ≤ next_funding − now ≤ w`, and
`get_recent_pairs w` exactly those with
`0 ≤ now − (next_funding − interval_h hours) ≤ w`. -/
theorem C6_window_filters (now window_sec : ℚ) (scanResults : List Snapshot) :
    (∀ p : String × ℚ, p ∈ get_upcoming_pairs now window_sec scanResults ↔
      ∃ r ∈ scanResults,
        (0 ≤ r.next_funding - now ∧ r.next_funding - now ≤ window_sec) ∧
        (r.symbol, r.rate_pct) = p) ∧
    (∀ p : String × ℚ, p ∈ get_recent_pairs now window_sec scanResults ↔
      ∃ r ∈ scanResults,
        (0 ≤ now - (r.next_funding - r.interval_h * 3600) ∧
          now - (r.next_funding - r.interval_h * 3600) ≤ window_sec) ∧
        (r.symbol, r.rate_pct) = p) := by
  constructor <;> intro p <;>
    simp [get_upcoming_pairs, get_recent_pairs, List.mem_filterMap,
      Option.ite_none_right_eq_some]

/-- Helper: if no observation before `o` reports either leg FILLED and `o`
reports the stop-loss FILLED, the run cancels exactly the take-profit
order and terminates. -/
theorem watch_sl_first (sl_id tp_id : ℕ) (hsl : sl_id ≠ 0) (htp : tp_id ≠ 0) :
    ∀ (pre : List PollObs) (o : PollObs) (rest : List PollObs),
    (∀ p ∈ pre, p.slStatus ≠ some "FILLED" ∧ p.tpStatus ≠ some "FILLED") →
    o.slStatus = some "FILLED" →
    watch_and_cancel sl_id tp_id (pre ++ o :: rest) = ⟨[tp_id], true⟩ := by
  intro pre
  induction pre with
  | nil =>
    intro o rest _ hfill
    simp [watch_and_cancel, hsl, htp, hfill]
  | cons p t ih =>
    intro o rest hpre hfill
    have h1 := (hpre p (List.mem_cons_self p t)).1
    have h2 := (hpre p (List.mem_cons_self p t)).2
    have hstep : watch_and_cancel sl_id tp_id (p :: (t ++ o :: rest)) =
        watch_and_cancel sl_id tp_id (t ++ o :: rest) := by
      simp [watch_and_cancel, hsl, htp, h1, h2]
    rw [List.cons_append, hstep]
    exact ih o rest (fun q hq => hpre q (List.mem_cons_of_mem p hq)) hfill

/-- Helper: every run requests at most one cancellation. -/
theorem watch_cancels_length (sl_id tp_id : ℕ) :
    ∀ obs : List PollObs, (watch_and_cancel sl_id tp_id obs).cancels.length ≤ 1 := by
  intro obs
  induction obs with
  | nil => simp [watch_and_cancel]
  | cons o rest ih =>
    simp only [watch_and_cancel]
    repeat' split
    any_goals exact ih
    all_goals simp

/-- C9: over a run in which the stop-loss order reports FILLED before the
take-profit order, the monitor requests exactly one cancellation, of the
take-profit order, and terminates; a `-2011` "unknown order" outcome on
that cancel changes nothing (the loop swallows the exception and still
breaks); and over any run at most one of the two protective orders is ever
cancelled, at most once. -/
theorem C9_oco_sl_first (sl_id tp_id : ℕ) (hsl : sl_id ≠ 0) (htp : tp_id ≠ 0)
    (pre : List PollObs) (o : PollObs) (rest : List PollObs)
    (hpre : ∀ p ∈ pre, p.slStatus ≠ some "FILLED" ∧ p.tpStatus ≠ some "FILLED")
    (hfill : o.slStatus = some "FILLED") :
    watch_and_cancel sl_id tp_id (pre ++ o :: rest) = ⟨[tp_id], true⟩ ∧
    watch_and_cancel sl_id tp_id
        (pre ++ { o with cancelErrCode := some (-2011) } :: rest) = ⟨[tp_id], true⟩ ∧
    (∀ obs : List PollObs, (watch_and_cancel sl_id tp_id obs).cancels.length ≤ 1) :=
  ⟨watch_sl_first sl_id tp_id hsl htp pre o rest hpre hfill,
    watch_sl_first sl_id tp_id hsl htp pre { o with cancelErrCode := some (-2011) }
      rest hpre (by simpa using hfill),
    watch_cancels_length sl_id tp_id⟩

/-- C9 witness: ids 7 and 8, one quiet poll, then the stop-loss reports
FILLED with the cancel answered by `-2011`: the run cancels order 8 only
and terminates. -/
theorem C9_oco_sl_first_witness :
    watch_and_cancel 7 8
        ([⟨some "NEW", some "NEW", none⟩] ++
          ⟨some "FILLED", some "NEW", some (-2011)⟩ :: []) = ⟨[8], true⟩ ∧
    watch_and_cancel 7 8
        ([⟨some "NEW", some "NEW", none⟩] ++
          ({ slStatus := some "FILLED", tpStatus := some "NEW",
             cancelErrCode := some (-2011) } : PollObs) :: []) = ⟨[8], true⟩ :=
  have h := C9_oco_sl_first 7 8 (by decide) (by decide)
    [⟨some "NEW", some "NEW", none⟩] ⟨some "FILLED", some "NEW", some (-2011)⟩ []
    (by intro p hp; rw [List.mem_singleton] at hp; subst hp; exact ⟨by simp, by simp⟩)
    rfl
  ⟨h.1, h.2.1⟩

/-- C10: the loop body checks and acts on the stop-loss leg before the
take-profit leg, so when both legs are observed FILLED in the same
iteration the monitor deterministically cancels the take-profit order and
the stop-loss order is never cancelled in that run. -/
theorem C10_sl_acted_first (sl_id tp_id : ℕ) (hsl : sl_id ≠ 0) (htp : tp_id ≠ 0)
    (pre : List PollObs) (o : PollObs) (rest : List PollObs)
    (hpre : ∀ p ∈ pre, p.slStatus ≠ some "FILLED" ∧ p.tpStatus ≠ some "FILLED")
    (hslf : o.slStatus = some "FILLED") (htpf : o.tpStatus = some "FILLED") :
    watch_and_cancel sl_id tp_id (pre ++ o :: rest) = ⟨[tp_id], true⟩ ∧
    (sl_id ≠ tp_id →
      sl_id ∉ (watch_and_cancel sl_id tp_id (pre ++ o :: rest)).cancels) := by
  have h := watch_sl_first sl_id tp_id hsl htp pre o rest hpre hslf
  exact ⟨h, fun hne => by rw [h]; simp [hne]⟩

/-- C10 witness: ids 7 and 8 with both legs FILLED in the very first
iteration: order 8 (take-profit) is cancelled and 7 is not. -/
theorem C10_sl_acted_first_witness :
    watch_and_cancel 7 8 ([] ++ ⟨some "FILLED", some "FILLED", none⟩ :: []) = ⟨[8], true⟩ ∧
    7 ∉ (watch_and_cancel 7 8 ([] ++ ⟨some "FILLED", some "FILLED", none⟩ :: [])).cancels :=
  have h := C10_sl_acted_first 7 8 (by decide) (by decide) []
    ⟨some "FILLED", some "FILLED", none⟩ [] (by intro p hp; simp at hp) rfl rfl
  ⟨h.1, h.2 (by decide)⟩

end FundingTrader
